import Mathlib

/-!
Verification of the RAG email-drafting backend.

The development shallowly embeds the three request-handling layers of the
repository:

* the Express gateway route (`createQueryRouter` in `src/routes/query.ts`):
  request validation and HTTP status mapping;
* the API client (`BedrockApiClient.invokeQuery` in `src/apiClient.ts`):
  forwarding to API Gateway and error/`|| null` normalisation;
* the Lambda orchestrator (`exports.handler`): retrieval-input construction,
  context/prompt assembly, citation extraction, response composition and the
  outer try/catch.

JavaScript dynamic values that the code inspects for truthiness or type are
modelled by `JSPrim`; the two external collaborators (Knowledge Retriever and
the model invocation, including parsing of its reply) are modelled as oracle
functions from the exact input the code sends to an `Except`-ed outcome, so a
thrown error is `Except.error msg` carrying the thrown message.
-/

namespace RagBackend

/-- JavaScript primitive-ish values as they can appear in a JSON request body
field.  `obj` stands for any (truthy, non-string) object or array value. -/
inductive JSPrim where
  | undef
  | jsNull
  | str (s : String)
  | num (n : Int)
  | boolean (b : Bool)
  | obj
  deriving DecidableEq, Repr

/-- JavaScript truthiness of a `JSPrim` (`Boolean(v)`). -/
def jsTruthy : JSPrim → Bool
  | .undef => false
  | .jsNull => false
  | .str s => s != ""
  | .num n => n != 0
  | .boolean b => b
  | .obj => true

/-- JavaScript string interpolation of a value (as in a template literal). -/
def jsToString : JSPrim → String
  | .undef => "undefined"
  | .jsNull => "null"
  | .str s => s
  | .num n => toString n
  | .boolean b => if b then "true" else "false"
  | .obj => "[object Object]"

/-- Underlying string of a value known to be a string (the gateway only calls
`.trim()` on `question` after validation has established it is a string). -/
def jsStrVal : JSPrim → String
  | .str s => s
  | _ => ""

/-- Characters removed by JavaScript `String.prototype.trim` (the practical
ASCII subset; exotic Unicode space code points are not modelled). -/
def jsWhitespace (c : Char) : Bool :=
  c == ' ' || c == '\t' || c == '\n' || c == '\r' || c == '\x0b' || c == '\x0c'

/-- JavaScript `s.trim()`, as a structurally recursive list computation so
that concrete instances reduce in the kernel. -/
def jsTrim (s : String) : String :=
  ⟨((s.data.dropWhile jsWhitespace).reverse.dropWhile jsWhitespace).reverse⟩

/-- One entry of `conversationHistory` as received in the JSON body; its
`role` and `content` fields may be arbitrary JSON values. -/
structure ConvMsg where
  role : JSPrim
  content : JSPrim
  deriving DecidableEq, Repr

/-- The `conversationHistory` field of a request body: absent (or another
falsy value, which the `if (conversationHistory)` guard skips), a truthy
non-array value, or an actual array of entries. -/
inductive HistoryField where
  | missing
  | notArray
  | array (msgs : List ConvMsg)
  deriving DecidableEq, Repr

/-- A client request body as destructured by the gateway route:
`const { question, requestSessionId, modelId, conversationHistory } = req.body`.
`requestSessionId` is modelled as `Option String` (`none` = undefined/null);
the code never inspects it beyond passing it along. -/
structure ClientRequest where
  question : JSPrim
  requestSessionId : Option String
  modelId : JSPrim
  conversationHistory : HistoryField
  deriving DecidableEq, Repr

/-- The `{ statusCode, error, message }` JSON envelope the gateway sends on
validation and server errors. -/
structure ErrorBody where
  statusCode : Nat
  error : String
  message : String
  deriving DecidableEq, Repr

/-- Body of a gateway HTTP response: either the 200 success payload
`{ response, citation, sessionId }` or an error envelope. -/
inductive GatewayBody where
  | success (response : String) (citation : Option String) (sessionId : Option String)
  | failure (body : ErrorBody)
  deriving DecidableEq, Repr

/-- A gateway HTTP response: status code plus JSON body. -/
structure GatewayResponse where
  status : Nat
  body : GatewayBody
  deriving DecidableEq, Repr

/-- The model whitelist of the gateway route (`validModels`). -/
def validModels : List String :=
  ["anthropic.claude-3-haiku-20240307-v1:0",
   "anthropic.claude-3-sonnet-20240229-v1:0",
   "anthropic.claude-3-opus-20240229-v1:0"]

/-- The gateway's question check
`!question || typeof question !== 'string' || question.trim().length === 0`:
true exactly when `question` is not a string (covering absent/null and all
falsy non-strings) or trims to the empty string. -/
def questionInvalid : JSPrim → Bool
  | .str s => jsTrim s == ""
  | _ => true

/-- `validModels.includes(modelId)`: strict-equality membership, so only an
exact string from the whitelist matches. -/
def modelIdWhitelisted : JSPrim → Bool
  | .str s => validModels.contains s
  | _ => false

/-- Per-entry history validation, in source order: first
`!msg.role || !msg.content`, then `!['customer','agent'].includes(msg.role)`. -/
def validateHistoryEntries : List ConvMsg → Option ErrorBody
  | [] => none
  | m :: rest =>
    if !jsTruthy m.role || !jsTruthy m.content then
      some ⟨400, "Bad Request", "Each conversation message must have role and content"⟩
    else if !(m.role == .str "customer" || m.role == .str "agent") then
      some ⟨400, "Bad Request", "Message role must be either \"customer\" or \"agent\""⟩
    else validateHistoryEntries rest

/-- The `conversationHistory` validation block of the gateway route. -/
def validateHistory : HistoryField → Option ErrorBody
  | .missing => none
  | .notArray => some ⟨400, "Bad Request", "conversationHistory must be an array"⟩
  | .array msgs => validateHistoryEntries msgs

/-- The full validation sequence of the gateway route; `none` means the
request proceeds to the upstream call. -/
def routeValidate (req : ClientRequest) : Option ErrorBody :=
  if questionInvalid req.question then
    some ⟨400, "Bad Request", "Missing required parameter: question"⟩
  else if jsTruthy req.modelId && !modelIdWhitelisted req.modelId then
    some ⟨400, "Bad Request",
      "Invalid modelId. Must be one of: " ++ String.intercalate ", " validModels⟩
  else validateHistory req.conversationHistory

/-- The wire request the gateway builds after validation (`queryRequest`):
note `question: question.trim()`. -/
structure QueryRequest where
  question : String
  requestSessionId : Option String
  modelId : JSPrim
  conversationHistory : Option (List ConvMsg)
  deriving DecidableEq, Repr

/-- The forwarded `conversationHistory` value as the Lambda sees it: an array
survives the JSON round trip, anything else behaves as absent for the
handler's `if (conversationHistory && conversationHistory.length > 0)`. -/
def historyToOption : HistoryField → Option (List ConvMsg)
  | .array msgs => some msgs
  | _ => none

/-- `queryRequest` construction in the gateway route (lines 67-73). -/
def buildQueryRequest (req : ClientRequest) : QueryRequest :=
  { question := jsTrim (jsStrVal req.question)
    requestSessionId := req.requestSessionId
    modelId := req.modelId
    conversationHistory := historyToOption req.conversationHistory }

/-! ### The Lambda orchestrator -/

/-- A retrieval result's `location`: `{type:'S3', s3Location:{uri}}`,
`{type:'WEB', webLocation:{url}}`, or anything else (including absent). -/
inductive RetrievalLocation where
  | s3 (uri : Option String)
  | web (url : Option String)
  | other
  deriving DecidableEq, Repr

/-- One element of `retrieveResponse.retrievalResults`. -/
structure RetrievalResult where
  text : Option String
  location : RetrievalLocation
  deriving DecidableEq, Repr

/-- The `retrieveInput` the handler sends: knowledge base id from the
environment, `retrievalQuery.text = question`, `numberOfResults: 5`. -/
structure RetrieveInput where
  knowledgeBaseId : String
  queryText : String
  numberOfResults : Nat
  deriving DecidableEq, Repr

/-- Construction of `retrieveInput` in the handler (Step 1). -/
def retrieveInputFor (kbId : String) (ev : QueryRequest) : RetrieveInput :=
  { knowledgeBaseId := kbId, queryText := ev.question, numberOfResults := 5 }

/-- One `[Source i]: text` block (`result.content?.text || ""`). -/
def sourceBlock (idx : Nat) (r : RetrievalResult) : String :=
  "[Source " ++ toString (idx + 1) ++ "]: " ++ r.text.getD ""

/-- The `context` string: numbered source blocks joined by blank lines; the
empty string when there are no retrieval results. -/
def buildContext (results : List RetrievalResult) : String :=
  String.intercalate "\n\n" (results.enum.map (fun p => sourceBlock p.1 p.2))

/-- Citation extraction (Step 2): `citationUrl` stays null unless there is at
least one result whose location is S3 or WEB typed. -/
def extractCitation : List RetrievalResult → Option String
  | [] => none
  | firstResult :: _ =>
    match firstResult.location with
    | .s3 uri => uri
    | .web url => url
    | .other => none

/-- Rendering of one history message:
`msg.role === 'customer' ? 'Customer' : 'CS Rep'` then interpolation. -/
def renderMsg (m : ConvMsg) : String :=
  (if m.role == .str "customer" then "[Customer]" else "[CS Rep]") ++ ": " ++
    jsToString m.content

/-- `conversationHistory && conversationHistory.length > 0`. -/
def hasHistory (hist : Option (List ConvMsg)) : Bool :=
  match hist with
  | some msgs => msgs.length > 0
  | none => false

/-- The `conversationHistorySection` string of the handler. -/
def historySection (hist : Option (List ConvMsg)) : String :=
  match hist with
  | some msgs =>
    if msgs.length > 0 then
      "<conversation_history>\n" ++
        String.intercalate "\n\n" (msgs.map renderMsg) ++
        "\n</conversation_history>\n\n"
    else ""
  | none => ""

/-- The fixed sentence of the no-context branch telling the model the
knowledge base has nothing relevant. -/
def noKnowledgeText : String :=
  "The company knowledge base does not contain information relevant to this inquiry."

/-- The `userPrompt` template of the handler (Step 3), with its
`context ? ... : ...` truthiness branch. -/
def buildUserPrompt (question : String) (hist : Option (List ConvMsg))
    (context : String) : String :=
  if context != "" then
    historySection hist ++ "<company_knowledge>\n" ++ context ++
      "\n</company_knowledge>\n\n<customer_inquiry>\n" ++ question ++
      "\n</customer_inquiry>\n\nDraft an email reply to answer the customer\x27s inquiry using the company knowledge provided above." ++
      (if hasHistory hist then
        " Consider the conversation history to maintain context and continuity."
       else "")
  else
    historySection hist ++ "<customer_inquiry>\n" ++ question ++
      "\n</customer_inquiry>\n\n" ++ noKnowledgeText ++
      " Draft an appropriate email reply." ++
      (if hasHistory hist then
        " Consider the conversation history to maintain context."
       else "")

/-- The user prompt the handler assembles for a given event and retrieval
result list. -/
def userPromptOf (ev : QueryRequest) (results : List RetrievalResult) : String :=
  buildUserPrompt ev.question ev.conversationHistory (buildContext results)

/-- The default model: `modelId || "anthropic.claude-3-haiku-20240307-v1:0"`. -/
def defaultModelId : String := "anthropic.claude-3-haiku-20240307-v1:0"

/-- `selectedModelId`: JavaScript `||` keeps a truthy `modelId`, else the
default. -/
def selectedModelId (m : JSPrim) : JSPrim :=
  if jsTruthy m then m else .str defaultModelId

/-- One message of the Anthropic-format request body. -/
structure ChatMessage where
  role : String
  content : String
  deriving DecidableEq, Repr

/-- The assistant prefill: literally `Hi {{CUSTOMER_NAME}},`. -/
def greetingPrefill : String := "Hi \x7b\x7bCUSTOMER_NAME\x7d\x7d,"

/-- The `invokeInput` body the handler sends (Step 4).  The fixed
`SYSTEM_PROMPT` constant is a large string literal whose exact text no claim
inspects; it is not reproduced here. -/
structure InvokeInput where
  modelId : JSPrim
  maxTokens : Nat
  temperatureTenths : Nat
  messages : List ChatMessage
  deriving DecidableEq, Repr

/-- Construction of the model-invocation input: selected model,
`max_tokens: 1000`, `temperature: 0.7` (stored as tenths), the user prompt
and the assistant prefill turn. -/
def invokeInputFor (ev : QueryRequest) (results : List RetrievalResult) : InvokeInput :=
  { modelId := selectedModelId ev.modelId
    maxTokens := 1000
    temperatureTenths := 7
    messages :=
      [⟨"user", userPromptOf ev results⟩, ⟨"assistant", greetingPrefill⟩] }

/-- The JSON body the Lambda returns: `{ response, citation, sessionId }`. -/
structure LambdaBody where
  response : String
  citation : Option String
  sessionId : Option String
  deriving DecidableEq, Repr

/-- A Lambda proxy response: `statusCode` plus stringified body. -/
structure LambdaResponse where
  statusCode : Nat
  body : LambdaBody
  deriving DecidableEq, Repr

/-- `makeResults` of the handler module, verbatim. -/
def makeResults (statusCode : Nat) (responseText : String)
    (citationText : Option String) (responseSessionId : Option String) : LambdaResponse :=
  { statusCode := statusCode
    body := { response := responseText
              citation := citationText
              sessionId := responseSessionId } }

/-- The Lambda handler.  `retrieve` and `invoke` are the two external
collaborators, applied to exactly the inputs the code sends; `Except.error e`
models a throw whose `err.message` is `e` (for `invoke` this includes a
malformed-reply parse failure).  The surrounding try/catch maps any throw to
`makeResults(500, Server side error: err.message, null, null)`. -/
def handler (kbId : String) (ev : QueryRequest)
    (retrieve : RetrieveInput → Except String (List RetrievalResult))
    (invoke : InvokeInput → Except String String) : LambdaResponse :=
  match retrieve (retrieveInputFor kbId ev) with
  | .error e => makeResults 500 ("Server side error: " ++ e) none none
  | .ok results =>
    match invoke (invokeInputFor ev results) with
    | .error e => makeResults 500 ("Server side error: " ++ e) none none
    | .ok generatedText =>
      makeResults 200 ("Hi \x7b\x7bCUSTOMER_NAME\x7d\x7d,\n\n" ++ generatedText)
        (extractCitation results) ev.requestSessionId

/-! ### The API client and the gateway's forwarding branch -/

/-- JavaScript `v || null` on a nullable string field: an absent value or the
empty string becomes null. -/
def jsOrNull : Option String → Option String
  | some s => if s == "" then none else some s
  | none => none

/-- What the `fetch` to API Gateway came back with: an ok (2xx) response with
a parsed body, a non-ok response with its body text, or a network-level
failure whose error message is `msg` (Node's fetch throws
`TypeError: fetch failed` on connectivity errors). -/
inductive UpstreamOutcome where
  | httpOk (body : LambdaBody)
  | httpError (status : Nat) (text : String)
  | networkError (msg : String)
  deriving DecidableEq, Repr

/-- `BedrockApiClient.invokeQuery`: on a non-ok status it throws
`API Gateway returned status {status}: {errorText}`; on success it normalises
`citation` and `sessionId` with `|| null`; other errors are rethrown. -/
def invokeQuery : UpstreamOutcome → Except String LambdaBody
  | .httpOk data =>
    .ok { response := data.response
          citation := jsOrNull data.citation
          sessionId := jsOrNull data.sessionId }
  | .httpError status text =>
    .error ("API Gateway returned status " ++ toString status ++ ": " ++ text)
  | .networkError msg => .error msg

/-- Does `needle` start `l`?  (`List.isPrefixOf`, spelled out so the proofs
below need no library lemmas about it.) -/
def startsWithChars : List Char → List Char → Bool
  | [], _ => true
  | _ :: _, [] => false
  | a :: as, b :: bs => a == b && startsWithChars as bs

/-- Does `needle` occur contiguously inside `l`? -/
def charsContain (needle : List Char) : List Char → Bool
  | [] => startsWithChars needle []
  | c :: rest => startsWithChars needle (c :: rest) || charsContain needle rest

/-- JavaScript `haystack.includes(needle)` on strings. -/
def strContains (haystack needle : String) : Bool :=
  charsContain needle.data haystack.data

/-- The catch block of the gateway route: errors whose message contains
`API Gateway` become 503 with a generic unavailability message; everything
else becomes a generic 500. -/
def routerForward (outcome : UpstreamOutcome) : GatewayResponse :=
  match invokeQuery outcome with
  | .ok result =>
    ⟨200, .success result.response result.citation result.sessionId⟩
  | .error m =>
    if strContains m "API Gateway" then
      ⟨503, .failure ⟨503, "Service Unavailable",
        "Bedrock Knowledge Base temporarily unavailable"⟩⟩
    else
      ⟨500, .failure ⟨500, "Internal Server Error", "Error invoking Bedrock model"⟩⟩

/-- A gateway response paired with whether the upstream call was made. -/
structure PipelineResult where
  resp : GatewayResponse
  orchestratorInvoked : Bool
  deriving DecidableEq, Repr

/-- The whole gateway route: validate, then forward; a validation failure
answers 400 immediately and never calls upstream. -/
def routerHandle (req : ClientRequest) (outcome : UpstreamOutcome) : PipelineResult :=
  match routeValidate req with
  | some err => ⟨⟨400, .failure err⟩, false⟩
  | none => ⟨routerForward outcome, true⟩

/-- Crude rendering of a Lambda body as the text `response.text()` yields for
a non-ok reply.  Only ever embedded after the `API Gateway returned status`
marker, and no claim inspects it, so JSON string escaping is not modelled. -/
def encodeBody (b : LambdaBody) : String :=
  "\x7b\"response\":\"" ++ b.response ++ "\",\"citation\":" ++
    (match b.citation with | some c => "\"" ++ c ++ "\"" | none => "null") ++
    ",\"sessionId\":" ++
    (match b.sessionId with | some s => "\"" ++ s ++ "\"" | none => "null") ++ "\x7d"

/-- API Gateway Lambda proxy integration plus fetch: the handler's
`statusCode` becomes the HTTP status, and `response.ok` is true exactly for
2xx statuses. -/
def toUpstreamOutcome (lr : LambdaResponse) : UpstreamOutcome :=
  if 200 ≤ lr.statusCode ∧ lr.statusCode < 300 then .httpOk lr.body
  else .httpError lr.statusCode (encodeBody lr.body)

/-- End-to-end composition of gateway, API Gateway hop and Lambda handler for
a request that reaches the Lambda (connectivity failures are covered by
feeding `routerHandle` a `networkError` outcome instead). -/
def pipeline (req : ClientRequest) (kbId : String)
    (retrieve : RetrieveInput → Except String (List RetrievalResult))
    (invoke : InvokeInput → Except String String) : PipelineResult :=
  routerHandle req (toUpstreamOutcome (handler kbId (buildQueryRequest req) retrieve invoke))

/-- A passage's source location as the spec describes it: the S3 URI, the web
URL, or nothing. -/
def sourceLocationOf (r : RetrievalResult) : Option String :=
  match r.location with
  | .s3 uri => uri
  | .web url => url
  | .other => none

/-- `needle` occurs contiguously in `haystack`. -/
def containsText (haystack needle : String) : Prop :=
  ∃ a b, haystack = a ++ needle ++ b

/-- The `sessionId` of a gateway success body, `none` on an error envelope
(whose JSON has no `sessionId` field at all). -/
def bodySessionId : GatewayBody → Option (Option String)
  | .success _ _ s => some s
  | .failure _ => none

/-- A history entry that passes both per-entry checks of the gateway. -/
def entryOk (m : ConvMsg) : Bool :=
  jsTruthy m.role && jsTruthy m.content &&
    (m.role == .str "customer" || m.role == .str "agent")

/-! ## Helper lemmas -/

theorem startsWithChars_extend (n : List Char) : ∀ (l r : List Char),
    startsWithChars n l = true → startsWithChars n (l ++ r) = true := by
  induction n with
  | nil => intro l r _; simp [startsWithChars]
  | cons a as ih =>
    intro l r h
    cases l with
    | nil => simp [startsWithChars] at h
    | cons b bs =>
      simp only [startsWithChars, Bool.and_eq_true] at h
      simpa [startsWithChars, h.1] using ih bs r h.2

theorem charsContain_of_startsWith (n l : List Char)
    (h : startsWithChars n l = true) : charsContain n l = true := by
  cases l with
  | nil => simpa [charsContain] using h
  | cons c rest => simp [charsContain, h]

/-- Every message `invokeQuery` throws for a non-ok upstream reply contains
the `API Gateway` marker the gateway's catch block tests for. -/
theorem strContains_apiGateway_marker (rest : String) :
    strContains ("API Gateway returned status " ++ rest) "API Gateway" = true := by
  unfold strContains
  rw [String.data_append]
  exact charsContain_of_startsWith _ _
    (startsWithChars_extend _ _ _ (by decide))

/-- Entries that pass both checks are skipped by the validation loop. -/
theorem validateHistoryEntries_append_ok (pre l : List ConvMsg)
    (h : ∀ m ∈ pre, entryOk m = true) :
    validateHistoryEntries (pre ++ l) = validateHistoryEntries l := by
  induction pre with
  | nil => rfl
  | cons m rest ih =>
    have hm := h m (by simp)
    have hrest : ∀ m' ∈ rest, entryOk m' = true := fun m' hm' => h m' (by simp [hm'])
    simp only [entryOk, Bool.and_eq_true] at hm
    obtain ⟨⟨h1, h2⟩, h3⟩ := hm
    simp [validateHistoryEntries, h1, h2, h3, ih hrest]

/-! ## Claim theorems -/

/-- Claim C1, counterexample: when the Retrieve step throws with message
`boom`, the orchestrator's 500 response body is `Server side error: boom`,
which contains the raw exception text — refuting that the message is generic
and that no raw internal exception text ever appears in the response body. -/
theorem c1_counterexample :
    (handler "KB" ⟨"q", none, .undef, none⟩
        (fun _ => .error "boom") (fun _ => .ok "t")).statusCode = 500 ∧
    (handler "KB" ⟨"q", none, .undef, none⟩
        (fun _ => .error "boom") (fun _ => .ok "t")).body.response
      = "Server side error: boom" ∧
    strContains (handler "KB" ⟨"q", none, .undef, none⟩
        (fun _ => .error "boom") (fun _ => .ok "t")).body.response "boom" = true := by
  decide

/-- Claim C1 as amended: whenever the Retrieve or the Invoke step throws, the
orchestrator returns statusCode 500 with null citation and sessionId, and the
response text is the string `Server side error: ` followed by the thrown
error's message — so the raw exception text does appear in the body. -/
theorem c1_amended (kb : String) (ev : QueryRequest)
    (invoke : InvokeInput → Except String String)
    (results : List RetrievalResult) (e : String) :
    handler kb ev (fun _ => .error e) invoke
      = makeResults 500 ("Server side error: " ++ e) none none ∧
    handler kb ev (fun _ => .ok results) (fun _ => .error e)
      = makeResults 500 ("Server side error: " ++ e) none none :=
  ⟨rfl, rfl⟩

/-- Claim C2 (confirmed): when retrieval returns at least one passage and the
draft completes, the citation of the orchestrator's response is exactly the
source location of the first-ranked passage, whatever the remaining passages
are. -/
theorem c2_citation_is_first_passage_location (kb : String) (ev : QueryRequest)
    (r : RetrievalResult) (rest : List RetrievalResult) (t : String) :
    (handler kb ev (fun _ => .ok (r :: rest)) (fun _ => .ok t)).body.citation
      = sourceLocationOf r := by
  cases hl : r.location <;>
    simp [handler, makeResults, extractCitation, sourceLocationOf, hl]

/-- Claim C3 (confirmed): when retrieval returns zero passages, the assembled
user prompt contains the explicit no-relevant-knowledge instruction, and the
response's citation is null whatever the model invocation does. -/
theorem c3_zero_passages_prompt_and_null_citation (kb : String)
    (ev : QueryRequest) (invoke : InvokeInput → Except String String) :
    containsText (userPromptOf ev []) noKnowledgeText ∧
    (handler kb ev (fun _ => .ok []) invoke).body.citation = none := by
  constructor
  · refine ⟨historySection ev.conversationHistory ++ "<customer_inquiry>\n" ++
        ev.question ++ "\n</customer_inquiry>\n\n",
      " Draft an appropriate email reply." ++
        (if hasHistory ev.conversationHistory then
          " Consider the conversation history to maintain context."
         else ""), ?_⟩
    show buildUserPrompt ev.question ev.conversationHistory (buildContext []) = _
    simp only [buildContext, List.enum_nil, List.map_nil, String.intercalate]
    rw [buildUserPrompt]
    simp [String.append_assoc]
  · cases h : invoke (invokeInputFor ev []) <;>
      simp [handler, makeResults, h, extractCitation]

/-- Claim C4, counterexample: a request supplying the empty-string sessionId
gets back sessionId null on a successful draft (the API client's `|| null`
coercion), so the response sessionId does not always equal the supplied
requestSessionId. -/
theorem c4_counterexample :
    (pipeline ⟨.str "q", some "", .undef, .missing⟩ "KB"
        (fun _ => .ok []) (fun _ => .ok "text")).resp
      = ⟨200, .success "Hi \x7b\x7bCUSTOMER_NAME\x7d\x7d,\n\ntext" none none⟩ ∧
    (⟨.str "q", some "", .undef, .missing⟩ : ClientRequest).requestSessionId
      = some "" ∧
    some "" ≠ (none : Option String) := by
  decide

/-- Claim C4 as amended: for every request that passes validation and whose
draft succeeds, the response is a 200 whose sessionId is the supplied
requestSessionId normalised by `|| null`: unchanged when it is a non-empty
string, null when it was absent or the empty string. -/
theorem c4_amended (req : ClientRequest) (kb : String)
    (results : List RetrievalResult) (t : String)
    (hv : routeValidate req = none) :
    (pipeline req kb (fun _ => .ok results) (fun _ => .ok t)).resp.status = 200 ∧
    bodySessionId (pipeline req kb (fun _ => .ok results) (fun _ => .ok t)).resp.body
      = some (jsOrNull req.requestSessionId) := by
  constructor <;>
    simp [pipeline, routerHandle, hv, handler, makeResults, toUpstreamOutcome,
      invokeQuery, routerForward, buildQueryRequest, bodySessionId]

/-- Witness for the amended claim C4 at a concrete request. -/
theorem c4_amended_witness :
    routeValidate ⟨.str "q", some "abc", .undef, .missing⟩ = none ∧
    ((pipeline ⟨.str "q", some "abc", .undef, .missing⟩ "KB"
        (fun _ => .ok []) (fun _ => .ok "text")).resp.status = 200 ∧
      bodySessionId (pipeline ⟨.str "q", some "abc", .undef, .missing⟩ "KB"
          (fun _ => .ok []) (fun _ => .ok "text")).resp.body
        = some (jsOrNull (some "abc"))) :=
  ⟨by decide, c4_amended ⟨.str "q", some "abc", .undef, .missing⟩ "KB" [] "text" (by decide)⟩

/-- Claim C5 (confirmed): on every successful draft the response text is the
literal greeting prefill, a blank line, then the model's continuation —  a
deterministic composition of the external call's output. -/
theorem c5_response_is_greeting_then_continuation (kb : String)
    (ev : QueryRequest) (results : List RetrievalResult) (t : String) :
    (handler kb ev (fun _ => .ok results) (fun _ => .ok t)).body.response
      = greetingPrefill ++ "\n\n" ++ t := by
  show "Hi \x7b\x7bCUSTOMER_NAME\x7d\x7d,\n\n" ++ t = greetingPrefill ++ "\n\n" ++ t
  have h : greetingPrefill ++ "\n\n" = "Hi \x7b\x7bCUSTOMER_NAME\x7d\x7d,\n\n" := by decide
  rw [← h, String.append_assoc]

/-- Claim C6, counterexample: a connectivity failure of the forwarded call
(Node fetch throws `fetch failed`, a message without the `API Gateway`
marker) is answered with a generic 500, not with the claimed 503. -/
theorem c6_counterexample :
    (routerHandle ⟨.str "q", none, .undef, .missing⟩
        (.networkError "fetch failed")).resp
      = ⟨500, .failure ⟨500, "Internal Server Error", "Error invoking Bedrock model"⟩⟩ ∧
    (routerHandle ⟨.str "q", none, .undef, .missing⟩
        (.networkError "fetch failed")).resp.status ≠ 503 := by
  decide

/-- Claim C6 as amended: for a validated request, a service error (non-2xx
upstream reply, whose thrown message carries the `API Gateway` marker) is
surfaced as 503 with the generic temporarily-unavailable message, while a
connectivity error whose message lacks the marker is surfaced as the generic
500; in both cases the single upstream outcome is consumed once, with no
retry. -/
theorem c6_amended (req : ClientRequest) (s : Nat) (t m : String)
    (hv : routeValidate req = none)
    (hm : strContains m "API Gateway" = false) :
    routerHandle req (.httpError s t)
      = ⟨⟨503, .failure ⟨503, "Service Unavailable",
          "Bedrock Knowledge Base temporarily unavailable"⟩⟩, true⟩ ∧
    routerHandle req (.networkError m)
      = ⟨⟨500, .failure ⟨500, "Internal Server Error",
          "Error invoking Bedrock model"⟩⟩, true⟩ := by
  constructor
  · have hmark := strContains_apiGateway_marker (toString s ++ (": " ++ t))
    simp only [routerHandle, hv, routerForward, invokeQuery]
    rw [String.append_assoc, String.append_assoc]
    simp [hmark]
  · simp [routerHandle, hv, routerForward, invokeQuery, hm]

/-- Witness for the amended claim C6 at a concrete request and outcomes. -/
theorem c6_amended_witness :
    (routeValidate ⟨.str "q", none, .undef, .missing⟩ = none ∧
      strContains "fetch failed" "API Gateway" = false) ∧
    (routerHandle ⟨.str "q", none, .undef, .missing⟩ (.httpError 500 "x")
        = ⟨⟨503, .failure ⟨503, "Service Unavailable",
            "Bedrock Knowledge Base temporarily unavailable"⟩⟩, true⟩ ∧
      routerHandle ⟨.str "q", none, .undef, .missing⟩ (.networkError "fetch failed")
        = ⟨⟨500, .failure ⟨500, "Internal Server Error",
            "Error invoking Bedrock model"⟩⟩, true⟩) :=
  ⟨⟨by decide, by decide⟩,
    c6_amended ⟨.str "q", none, .undef, .missing⟩ 500 "x" "fetch failed"
      (by decide) (by decide)⟩

/-- Claim C7 (confirmed): whenever the question is missing, not a string,
empty, or whitespace-only, the gateway answers 400 with the
statusCode/error/message envelope and the orchestrator is never invoked —
the outcome is the same for arbitrary retrieval and invocation oracles. -/
theorem c7_invalid_question_rejected (req : ClientRequest) (kb : String)
    (retrieve : RetrieveInput → Except String (List RetrievalResult))
    (invoke : InvokeInput → Except String String)
    (h : (∀ s, req.question ≠ .str s) ∨
      ∃ s, req.question = .str s ∧ jsTrim s = "") :
    pipeline req kb retrieve invoke
      = ⟨⟨400, .failure ⟨400, "Bad Request", "Missing required parameter: question"⟩⟩,
          false⟩ := by
  have hq : questionInvalid req.question = true := by
    rcases h with h | ⟨s, hs, ht⟩
    · cases hqq : req.question <;> simp [questionInvalid]
      exact absurd hqq (h _)
    · simp [hs, questionInvalid, ht]
  simp [pipeline, routerHandle, routeValidate, hq]

/-- Witness for claim C7 at a whitespace-only question. -/
theorem c7_invalid_question_rejected_witness :
    ((∀ s, (JSPrim.str "   ") ≠ .str s) ∨
      ∃ s, (JSPrim.str "   ") = .str s ∧ jsTrim s = "") ∧
    pipeline ⟨.str "   ", none, .undef, .missing⟩ "KB"
        (fun _ => .ok []) (fun _ => .ok "t")
      = ⟨⟨400, .failure ⟨400, "Bad Request", "Missing required parameter: question"⟩⟩,
          false⟩ :=
  ⟨Or.inr ⟨"   ", rfl, by decide⟩,
    c7_invalid_question_rejected ⟨.str "   ", none, .undef, .missing⟩ "KB"
      (fun _ => .ok []) (fun _ => .ok "t") (Or.inr ⟨"   ", rfl, by decide⟩)⟩

/-- Claim C8, counterexample: the request with question `" hi "` is valid,
yet the retrieval call is made with the trimmed text `"hi"`, not with the
raw text exactly as supplied — the gateway trims before forwarding. -/
theorem c8_counterexample :
    routeValidate ⟨.str " hi ", none, .undef, .missing⟩ = none ∧
    (retrieveInputFor "KB"
        (buildQueryRequest ⟨.str " hi ", none, .undef, .missing⟩)).queryText = "hi" ∧
    "hi" ≠ " hi " := by
  decide

/-- Claim C8 as amended: for every request whose question is the string `s`,
the orchestrator's retrieval call uses the gateway-trimmed question text and
requests exactly top-K = 5 passages against the configured knowledge base;
the text equals the raw question exactly when the question has no
surrounding whitespace. -/
theorem c8_amended (req : ClientRequest) (kb : String) (s : String)
    (hq : req.question = .str s) :
    retrieveInputFor kb (buildQueryRequest req)
      = { knowledgeBaseId := kb, queryText := jsTrim s, numberOfResults := 5 } := by
  simp [retrieveInputFor, buildQueryRequest, hq, jsStrVal]

/-- Witness for the amended claim C8 at a concrete request. -/
theorem c8_amended_witness :
    (JSPrim.str " hi ") = JSPrim.str " hi " ∧
    retrieveInputFor "KB" (buildQueryRequest ⟨.str " hi ", none, .undef, .missing⟩)
      = { knowledgeBaseId := "KB", queryText := jsTrim " hi ", numberOfResults := 5 } :=
  ⟨rfl, c8_amended ⟨.str " hi ", none, .undef, .missing⟩ "KB" " hi " rfl⟩

/-- Claim C9 (confirmed): a request whose modelId is undefined, null or the
empty string passes the gateway's model check (it is not rejected, given the
rest of the request is valid), and the orchestrator invokes the default
model `anthropic.claude-3-haiku-20240307-v1:0`. -/
theorem c9_default_model (req : ClientRequest) (results : List RetrievalResult)
    (hm : req.modelId = .undef ∨ req.modelId = .jsNull ∨ req.modelId = .str "")
    (hq : questionInvalid req.question = false)
    (hh : validateHistory req.conversationHistory = none) :
    routeValidate req = none ∧
    (invokeInputFor (buildQueryRequest req) results).modelId = .str defaultModelId := by
  have ht : jsTruthy req.modelId = false := by
    rcases hm with h | h | h <;> simp [h, jsTruthy]
  constructor
  · simp [routeValidate, hq, ht, hh]
  · simp [invokeInputFor, selectedModelId, buildQueryRequest, ht]

/-- Witness for claim C9 at a concrete request with no modelId. -/
theorem c9_default_model_witness :
    ((JSPrim.undef = JSPrim.undef ∨ JSPrim.undef = JSPrim.jsNull ∨
        JSPrim.undef = JSPrim.str "") ∧
      questionInvalid (.str "q") = false ∧
      validateHistory .missing = none) ∧
    (routeValidate ⟨.str "q", none, .undef, .missing⟩ = none ∧
      (invokeInputFor (buildQueryRequest ⟨.str "q", none, .undef, .missing⟩) []).modelId
        = .str defaultModelId) :=
  ⟨⟨Or.inl rfl, by decide, rfl⟩,
    c9_default_model ⟨.str "q", none, .undef, .missing⟩ [] (Or.inl rfl)
      (by decide) rfl⟩

/-- Claim C10, counterexample: a request whose history contains an entry with
an empty-string role is answered 400, but with the role-value message — the
earlier entry with the invalid role `bot` is checked first — not with the
role-and-content message the claim requires for every such request. -/
theorem c10_counterexample :
    routeValidate ⟨.str "q", none, .undef,
        .array [⟨.str "bot", .str "hi"⟩, ⟨.str "", .str "x"⟩]⟩
      = some ⟨400, "Bad Request",
          "Message role must be either \"customer\" or \"agent\""⟩ ∧
    (⟨.str "", .str "x"⟩ : ConvMsg).role = .str "" ∧
    "Message role must be either \"customer\" or \"agent\""
      ≠ "Each conversation message must have role and content" := by
  decide

/-- Claim C10 as amended: when question and modelId pass validation and every
history entry before the offending one is valid, an entry whose role or
content is the empty string makes the gateway answer 400 with the message
that each conversation message must have role and content, without calling
upstream — the truthiness check rejects empty strings, which is stricter
than requiring the fields to be present. -/
theorem c10_amended (req : ClientRequest) (pre post : List ConvMsg)
    (m : ConvMsg) (outcome : UpstreamOutcome)
    (hq : questionInvalid req.question = false)
    (hm : (jsTruthy req.modelId && !modelIdWhitelisted req.modelId) = false)
    (hh : req.conversationHistory = .array (pre ++ m :: post))
    (hpre : ∀ m' ∈ pre, entryOk m' = true)
    (hbad : m.role = .str "" ∨ m.content = .str "") :
    routerHandle req outcome
      = ⟨⟨400, .failure ⟨400, "Bad Request",
          "Each conversation message must have role and content"⟩⟩, false⟩ := by
  have hstep : validateHistoryEntries (m :: post)
      = some ⟨400, "Bad Request",
          "Each conversation message must have role and content"⟩ := by
    rcases hbad with h | h <;> simp [validateHistoryEntries, h, jsTruthy]
  have hrv : routeValidate req
      = some ⟨400, "Bad Request",
          "Each conversation message must have role and content"⟩ := by
    simp [routeValidate, hq, hm, validateHistory, hh,
      validateHistoryEntries_append_ok pre (m :: post) hpre, hstep]
  simp [routerHandle, hrv]

/-- Witness for the amended claim C10 at a concrete request whose second
history entry has empty content. -/
theorem c10_amended_witness :
    (questionInvalid (.str "q") = false ∧
      (jsTruthy JSPrim.undef && !modelIdWhitelisted JSPrim.undef) = false ∧
      (HistoryField.array ([⟨.str "customer", .str "hi"⟩] ++
          ⟨.str "agent", .str ""⟩ :: [])
        = .array ([⟨.str "customer", .str "hi"⟩] ++ ⟨.str "agent", .str ""⟩ :: [])) ∧
      (∀ m' ∈ [(⟨.str "customer", .str "hi"⟩ : ConvMsg)], entryOk m' = true) ∧
      ((⟨.str "agent", .str ""⟩ : ConvMsg).role = .str "" ∨
        (⟨.str "agent", .str ""⟩ : ConvMsg).content = .str "")) ∧
    routerHandle ⟨.str "q", none, .undef,
        .array ([⟨.str "customer", .str "hi"⟩] ++ ⟨.str "agent", .str ""⟩ :: [])⟩
        (.networkError "fetch failed")
      = ⟨⟨400, .failure ⟨400, "Bad Request",
          "Each conversation message must have role and content"⟩⟩, false⟩ :=
  ⟨⟨by decide, by decide, rfl, by decide, Or.inr rfl⟩,
    c10_amended ⟨.str "q", none, .undef,
        .array ([⟨.str "customer", .str "hi"⟩] ++ ⟨.str "agent", .str ""⟩ :: [])⟩
      [⟨.str "customer", .str "hi"⟩] [] ⟨.str "agent", .str ""⟩
      (.networkError "fetch failed") (by decide) (by decide) rfl
      (by decide) (Or.inr rfl)⟩

end RagBackend
